import Mathlib

/-!
Verification development for the Openride repository.

The definitions below are shallow embeddings of the TypeScript demo frontend
(`src/frontend/app/rider/checkout/page.tsx` and the rider components) and of
the reference redemption contract shown in `src/backend/BLOCKCHAIN_GUIDE.md`.
JavaScript numbers that are only ever integers in the source are modelled as
`Nat`; strings as `String`; JS `Array.prototype.sort` (stable since ES2019)
as a stable insertion sort.
-/

namespace Openride

/-! ## Data model

`Route` mirrors the objects of the `allRoutes` sample array in the rider
dashboard.  The source fields `from`/`to` are Lean keywords and are renamed
`fromLoc`/`toLoc`; `driverRating` (a decimal such as 4.9) is kept in tenths
so that 4.9 becomes 49. -/

structure Route where
  id : String
  driverName : String
  driverRating : Nat
  vehicleInfo : String
  fromLoc : String
  toLoc : String
  passingStops : List String
  departureTime : String
  availableSeats : Nat
  pricePerSeat : Nat
  aiScore : Nat
  bookings : Nat
deriving DecidableEq, Repr

/-- The `searchParams` object handed to `handleSearch` by the search form:
`{ from, to, timeRange }` (fields renamed as in `Route`). -/
structure SearchParams where
  fromLoc : String
  toLoc : String
  timeRange : String
deriving DecidableEq, Repr

/-! ## String primitives used by `handleSearch` -/

/-- ASCII lowering of one character, as `String.prototype.toLowerCase`
acts on the ASCII range (the only characters appearing in the data). -/
def asciiToLower (c : Char) : Char :=
  if 65 ≤ c.toNat ∧ c.toNat ≤ 90 then Char.ofNat (c.toNat + 32) else c

/-- JS `s.toLowerCase()`. -/
def strToLower (s : String) : String := ⟨s.data.map asciiToLower⟩

/-- JS `hay.includes(needle)` on character lists: some suffix of `hay` starts
with `needle`. -/
def listIncludes : List Char → List Char → Bool
  | [], needle => needle.isEmpty
  | hay@(_ :: t), needle => needle.isPrefixOf hay || listIncludes t needle

/-- JS `hay.includes(needle)` on strings. -/
def strIncludes (hay needle : String) : Bool :=
  listIncludes hay.data needle.data

/-- JS `s.split(sep)` for a one-character separator (the page only splits on
`":"` and `"-"`), on character lists. -/
def splitChar (sep : Char) : List Char → List (List Char)
  | [] => [[]]
  | c :: t =>
    match splitChar sep t with
    | [] => if c = sep then [[], []] else [[c]]
    | h :: rest => if c = sep then [] :: h :: rest else (c :: h) :: rest

/-- JS `Number.parseInt(s)` restricted to what the checkout page feeds it:
leading spaces are skipped, then a non-empty run of decimal digits is read
(`none` plays the role of `NaN`, with which every comparison is false). -/
def jsParseInt (s : List Char) : Option Nat :=
  let ds := (s.dropWhile (fun c => c = ' ')).takeWhile Char.isDigit
  if ds.isEmpty then none
  else some (ds.foldl (fun n c => 10 * n + (c.toNat - 48)) 0)

/-- The value `Number.parseInt(t.split(":")[0])`: the hour component of a clock
string such as `"6:30 AM"` or `"06:00"`. -/
def hourField (t : List Char) : Option Nat :=
  jsParseInt ((splitChar ':' t).headD [])

/-- The value `Number.parseInt(route.departureTime.split(":")[0])`. -/
def routeTimeOf (r : Route) : Option Nat := hourField r.departureTime.data

/-- The destructuring `const [startTime, endTime] = timeRange.split("-").map(t =>
Number.parseInt(t.split(":")[0]))`; a missing element is JS `undefined`,
modelled as `none` like `NaN`. -/
def windowHours (timeRange : String) : Option Nat × Option Nat :=
  match (splitChar '-' timeRange.data).map hourField with
  | [] => (none, none)
  | [a] => (a, none)
  | a :: b :: _ => (a, b)

/-- The test `routeTime >= startTime && routeTime <= endTime`; comparisons against
`NaN`/`undefined` are false in JS. -/
def timeOk (timeRange : String) (r : Route) : Bool :=
  match routeTimeOf r, (windowHours timeRange).1, (windowHours timeRange).2 with
  | some rt, some st, some et => decide (st ≤ rt) && decide (rt ≤ et)
  | _, _, _ => false

/-- The filter callback of `handleSearch`:
`route.from.toLowerCase().includes(from.toLowerCase()) &&
 route.to.toLowerCase().includes(to.toLowerCase()) &&
 routeTime >= startTime && routeTime <= endTime &&
 route.availableSeats > 0`. -/
def matchesSearch (p : SearchParams) (r : Route) : Bool :=
  strIncludes (strToLower r.fromLoc) (strToLower p.fromLoc) &&
  strIncludes (strToLower r.toLoc) (strToLower p.toLoc) &&
  timeOk p.timeRange r &&
  decide (0 < r.availableSeats)

/-! ## The sort

`filtered.sort((a, b) => b.aiScore - a.aiScore)` — JS `sort` is stable and,
with this comparator, orders by `aiScore` descending.  A stable sort by a
total preorder has a unique result, realised here by insertion sort that
keeps an earlier element in front of a later one of equal score. -/

/-- Insert `a` in front of the first element whose score it reaches. -/
def insertDesc (a : Route) : List Route → List Route
  | [] => [a]
  | b :: l => if b.aiScore ≤ a.aiScore then a :: b :: l else b :: insertDesc a l

/-- Stable sort by `aiScore` descending. -/
def sortByScoreDesc : List Route → List Route
  | [] => []
  | a :: l => insertDesc a (sortByScoreDesc l)

/-- The body of `handleSearch` as a function of the route table:
filter by `matchesSearch`, then sort by AI match score. -/
def searchRoutes (p : SearchParams) (routes : List Route) : List Route :=
  sortByScoreDesc (routes.filter (matchesSearch p))

/-- The `allRoutes` sample data of the rider dashboard. -/
def allRoutes : List Route :=
  [ ⟨"1", "Chidi O.", 49, "Silver Honda Civic", "Ogba", "VI",
      ["Berger", "Ketu"], "6:30 AM", 3, 1500, 95, 2⟩,
    ⟨"2", "Amara K.", 48, "Black Toyota Camry", "Ikeja", "Lekki",
      ["Obalende"], "7:00 AM", 2, 2000, 88, 1⟩,
    ⟨"3", "Tunde A.", 47, "Blue Hyundai Elantra", "Surulere", "CMS",
      ["Yaba", "Oshodi"], "6:45 AM", 4, 1200, 92, 0⟩,
    ⟨"4", "Ngozi M.", 50, "White Mercedes Sedan", "Festac", "Marina",
      ["Ajah", "Ikorodu"], "7:15 AM", 2, 1800, 96, 2⟩ ]

/-- The function `handleSearch` itself closes over the module-level `allRoutes` table. -/
def handleSearch (p : SearchParams) : List Route :=
  searchRoutes p allRoutes

/-! ## Library lemmas about the search pipeline -/

theorem mem_insertDesc {x a : Route} {l : List Route} :
    x ∈ insertDesc a l ↔ x = a ∨ x ∈ l := by
  induction l with
  | nil => simp [insertDesc]
  | cons b t ih =>
    simp only [insertDesc]
    split
    · simp [or_comm, or_assoc, or_left_comm]
    · simp [ih]
      tauto

theorem mem_sortByScoreDesc {x : Route} {l : List Route} :
    x ∈ sortByScoreDesc l ↔ x ∈ l := by
  induction l with
  | nil => simp [sortByScoreDesc]
  | cons a t ih => simp [sortByScoreDesc, mem_insertDesc, ih]

theorem mem_searchRoutes {r : Route} {p : SearchParams} {routes : List Route} :
    r ∈ searchRoutes p routes ↔ r ∈ routes ∧ matchesSearch p r = true := by
  simp [searchRoutes, mem_sortByScoreDesc, List.mem_filter]

theorem pairwise_insertDesc {a : Route} {l : List Route}
    (h : l.Pairwise (fun x y => y.aiScore ≤ x.aiScore)) :
    (insertDesc a l).Pairwise (fun x y => y.aiScore ≤ x.aiScore) := by
  induction l with
  | nil => simp [insertDesc]
  | cons b t ih =>
    simp only [insertDesc]
    rcases List.pairwise_cons.mp h with ⟨hb, ht⟩
    split
    · rename_i hba
      refine List.pairwise_cons.mpr ⟨?_, h⟩
      intro y hy
      rcases List.mem_cons.mp hy with rfl | hyt
      · exact hba
      · exact le_trans (hb y hyt) hba
    · rename_i hba
      refine List.pairwise_cons.mpr ⟨?_, ih ht⟩
      intro y hy
      rcases mem_insertDesc.mp hy with rfl | hyt
      · exact le_of_not_le hba
      · exact hb y hyt

theorem pairwise_sortByScoreDesc (l : List Route) :
    (sortByScoreDesc l).Pairwise (fun x y => y.aiScore ≤ x.aiScore) := by
  induction l with
  | nil => simp [sortByScoreDesc]
  | cons a t ih => exact pairwise_insertDesc ih

theorem insertDesc_filter_of_eq {a : Route} {s : Nat} (l : List Route)
    (ha : a.aiScore = s) :
    (insertDesc a l).filter (fun r => r.aiScore == s) =
      a :: l.filter (fun r => r.aiScore == s) := by
  induction l with
  | nil => simp [insertDesc, List.filter, ha]
  | cons b t ih =>
    simp only [insertDesc]
    split
    · simp [List.filter, ha]
    · rename_i hba
      have hb : (b.aiScore == s) = false := by
        simp only [beq_eq_false_iff_ne, ne_eq]
        intro hbs
        exact hba (le_of_eq (hbs.trans ha.symm))
      simp [List.filter, hb, ih]

theorem insertDesc_filter_of_ne {a : Route} {s : Nat} (l : List Route)
    (ha : ¬ a.aiScore = s) :
    (insertDesc a l).filter (fun r => r.aiScore == s) =
      l.filter (fun r => r.aiScore == s) := by
  have ha' : (a.aiScore == s) = false := by simpa using ha
  induction l with
  | nil => simp [insertDesc, List.filter, ha']
  | cons b t ih =>
    simp only [insertDesc]
    split
    · simp [List.filter, ha']
    · cases hb : b.aiScore == s <;> simp [List.filter, hb, ih]

/-- Stability of the sort: the equal-score candidates appear in the output
in exactly their input order. -/
theorem sortByScoreDesc_filter (l : List Route) (s : Nat) :
    (sortByScoreDesc l).filter (fun r => r.aiScore == s) =
      l.filter (fun r => r.aiScore == s) := by
  induction l with
  | nil => rfl
  | cons a t ih =>
    simp only [sortByScoreDesc]
    by_cases ha : a.aiScore = s
    · rw [insertDesc_filter_of_eq _ ha, ih, List.filter]
      simp [ha]
    · rw [insertDesc_filter_of_ne _ ha, ih, List.filter]
      have : (a.aiScore == s) = false := by simpa using ha
      simp [this]

theorem isPrefixOf_iff_exists {l₁ l₂ : List Char} :
    l₁.isPrefixOf l₂ = true ↔ ∃ q, l₂ = l₁ ++ q := by
  induction l₁ generalizing l₂ with
  | nil => simp [List.isPrefixOf]
  | cons c t ih =>
    cases l₂ with
    | nil => simp [List.isPrefixOf]
    | cons d u =>
      simp only [List.isPrefixOf, Bool.and_eq_true, beq_iff_eq, ih]
      constructor
      · rintro ⟨rfl, q, rfl⟩
        exact ⟨q, rfl⟩
      · rintro ⟨q, hq⟩
        rcases List.cons.injEq .. ▸ hq with ⟨rfl, rfl⟩
        exact ⟨rfl, q, rfl⟩

/-- Correctness of `listIncludes`: it decides substring containment. -/
theorem listIncludes_iff {hay needle : List Char} :
    listIncludes hay needle = true ↔ ∃ p q, hay = p ++ needle ++ q := by
  induction hay with
  | nil =>
    simp only [listIncludes, List.isEmpty_iff]
    constructor
    · rintro rfl
      exact ⟨[], [], rfl⟩
    · rintro ⟨p, q, hpq⟩
      simpa using (List.append_eq_nil.mp
        (List.append_eq_nil.mp hpq.symm).1).2
  | cons c t ih =>
    simp only [listIncludes, Bool.or_eq_true, isPrefixOf_iff_exists, ih]
    constructor
    · rintro (⟨q, hq⟩ | ⟨p, q, hpq⟩)
      · exact ⟨[], q, by simpa using hq⟩
      · exact ⟨c :: p, q, by simp [hpq]⟩
    · rintro ⟨p, q, hpq⟩
      cases p with
      | nil =>
        left
        exact ⟨q, by simpa using hpq⟩
      | cons d p' =>
        right
        rcases List.cons.injEq .. ▸ hpq with ⟨rfl, hrest⟩
        exact ⟨p', q, hrest⟩

/-! ## Booking creation (rider dashboard `handleBooking`) -/

/-- A booking record as built by `handleBooking` and seeded in the
dashboard's `bookings` state. -/
structure Booking where
  id : String
  routeId : String
  driverName : String
  fromLoc : String
  toLoc : String
  departureTime : String
  status : String
  seats : Nat
  totalPrice : Nat
  date : String
deriving DecidableEq, Repr

/-- The pieces of the rider-dashboard state touched by `handleBooking`. -/
structure RiderDashboardState where
  activeTab : String
  bookings : List Booking
deriving DecidableEq, Repr

/-- The dashboard's initial `bookings` state (`BK001`). -/
def demoInitialState : RiderDashboardState :=
  ⟨"search",
    [⟨"BK001", "1", "Chidi O.", "Ogba", "VI", "6:30 AM", "Confirmed", 1, 1500, "Today"⟩]⟩

/-- The handler `handleBooking(routeId, seats)`: looks the route up in the constant
`allRoutes` table, appends a new `Confirmed` booking priced at
`route.pricePerSeat * seats`, and switches to the bookings tab.  The
booking id is `` "BK" ++ Date.now() ``, with the clock value passed in as
`now`.  Note that `allRoutes` is a module-level constant that no code path
ever mutates: seat availability is read, never written. -/
def handleBooking (now : Nat) (routeId : String) (seats : Nat)
    (st : RiderDashboardState) : RiderDashboardState :=
  match allRoutes.find? (fun r => r.id == routeId) with
  | some route =>
    { st with
      bookings := st.bookings ++
        [⟨"BK" ++ toString now, routeId, route.driverName, route.fromLoc,
          route.toLoc, route.departureTime, "Confirmed", seats,
          route.pricePerSeat * seats, "Today"⟩],
      activeTab := "bookings" }
  | none => st

/-! ## Booking confirmation (`BookingConfirmation` component) -/

/-- The reference `const bookingId = ` `` "BK-" + Date.now() `` — minted afresh on every
render of the confirmation page. -/
def bookingIdOf (now : Nat) : String := "BK-" ++ toString now

/-- The displayed seat-token identifier
`` "SEAT-" + Date.now() + "-" + Math.random().toString(36).substr(2, 9).toUpperCase() ``;
the random nine-character alphanumeric tail is the `nonce` argument. -/
def seatTokenIdOf (now : Nat) (nonce : String) : String :=
  "SEAT-" ++ toString now ++ "-" ++ nonce

/-! ## Payment (`InterswitchModal.handlePayment` and the checkout page) -/

/-- The payment parameters the modal forwards to the gateway. -/
structure PaymentParams where
  merchant_code : String
  pay_item_id : String
  txn_ref : String
  amount : Nat
  currency : Nat
  mode : String
deriving DecidableEq, Repr

/-- The gateway's completion response.  The callback reads only `resp`
and `desc`; the amount the customer actually paid is carried but never
inspected. -/
structure IswResponse where
  resp : String
  desc : String
  amountPaid : Nat
deriving DecidableEq, Repr

inductive PaymentOutcome where
  | success (txnRef : String)
  | failure (msg : String)
deriving DecidableEq, Repr

/-- The `paymentCallback` closure inside `handlePayment`: success exactly
when `response.resp === '00'`; otherwise the error message is
`response.desc` with a fixed fallback. -/
def paymentCallback (pp : PaymentParams) (response : IswResponse) : PaymentOutcome :=
  if response.resp = "00" then .success pp.txn_ref
  else .failure (if response.desc = "" then
    "Payment was not completed. Please try again." else response.desc)

inductive CheckoutStep where
  | review
  | payment
  | confirmation
deriving DecidableEq, Repr

/-- The handler `handlePaymentComplete(transactionRef)` on the checkout page:
`setStep("confirmation")`, unconditionally. -/
def handlePaymentComplete (transactionRef : String) : CheckoutStep :=
  .confirmation

/-- The checkout step reached once the gateway reports completion: the
modal's `onSuccess` feeds `handlePaymentComplete`; on failure the page
stays on the payment step (the modal shows its error state). -/
def checkoutAfterPayment (pp : PaymentParams) (response : IswResponse) : CheckoutStep :=
  match paymentCallback pp response with
  | .success ref => handlePaymentComplete ref
  | .failure _ => .payment

/-- The checkout page's `bookingData` constant. -/
structure BookingData where
  fromLoc : String
  toLoc : String
  driverName : String
  departureTime : String
  seats : Nat
  pricePerSeat : Nat
  totalPrice : Nat
deriving DecidableEq, Repr

def bookingDataDemo : BookingData :=
  ⟨"Ogba", "VI", "Chidi O.", "6:30 AM", 1, 1500, 1500⟩

/-! ## Token redemption (reference contract in `BLOCKCHAIN_GUIDE.md`)

The backend redemption endpoint itself (`booking_controller.py`) is not in
the repository snapshot; the guide's `BookingVerification` contract is the
redemption logic shipped in-tree.  A contract call is one atomic
transaction, so N concurrent invocations execute as some serialization of
N atomic calls; `runRedeems` folds such a serialization. -/

structure BookingToken where
  bookingId : String
  rider : String
  timestamp : Nat
  verified : Bool
  redeemed : Bool
deriving DecidableEq, Repr

/-- Solidity mapping default value: all fields zero. -/
def emptyToken : BookingToken := ⟨"", "", 0, false, false⟩

/-- The contract call `redeemToken(tokenId)`: revert messages are carried in `Except.error`;
on success the `redeemed` flag is compare-and-swapped to `true`.  `now` is
`block.timestamp`; the hypothesis `timestamp ≤ now` reflects that a block's
timestamp is not below the minting block's. -/
def redeemToken (now : Nat) (tokens : String → BookingToken) (tokenId : String) :
    Except String ((String → BookingToken) × Bool) :=
  let t := tokens tokenId
  if ¬ 0 < t.timestamp then .error "Token does not exist"
  else if t.redeemed then .error "Token already redeemed"
  else if ¬ now - t.timestamp < 86400 then .error "Token expired"
  else .ok (Function.update tokens tokenId { t with redeemed := true }, true)

/-- Run one serialization of redemption calls at the given block
timestamps, collecting each call's outcome. -/
def runRedeems : List Nat → (String → BookingToken) → String →
    List (Except String Bool) × (String → BookingToken)
  | [], st, _ => ([], st)
  | t :: ts, st, tid =>
    match redeemToken t st tid with
    | .error m =>
      let r := runRedeems ts st tid
      (.error m :: r.1, r.2)
    | .ok (st', b) =>
      let r := runRedeems ts st' tid
      (.ok b :: r.1, r.2)

/-! ## Spec-side definitions (used only to compare the code against the
claims' wording) -/

/-- The ranking order claimed by the spec: score descending, ties broken by
higher seat availability, then higher driver rating, then candidate
identifier. -/
def specRankBefore (a b : Route) : Bool :=
  decide (b.aiScore < a.aiScore) ||
  (a.aiScore == b.aiScore &&
    (decide (b.availableSeats < a.availableSeats) ||
      (a.availableSeats == b.availableSeats &&
        (decide (b.driverRating < a.driverRating) ||
          (a.driverRating == b.driverRating && decide (a.id ≤ b.id))))))

/-- A result list ordered as the spec's tie-break rules demand. -/
def specRankOrdered (l : List Route) : Prop :=
  l.Chain' (fun a b => specRankBefore a b = true)

/-- Executable check of `specRankOrdered`. -/
def specRankOrderedB : List Route → Bool
  | [] => true
  | [_] => true
  | a :: b :: l => specRankBefore a b && specRankOrderedB (b :: l)

/-- Clock time in minutes after midnight of a displayed departure time in
the data's `"h:mm AM"`/`"h:mm PM"` format (the claim's reading of a
candidate's departure time). -/
def depMinutes (s : String) : Option Nat :=
  match splitChar ':' s.data with
  | [h, rest] =>
    match splitChar ' ' rest with
    | [m, mer] =>
      match jsParseInt h, jsParseInt m with
      | some hv, some mv =>
        if mer = "AM".data then some ((hv % 12) * 60 + mv)
        else if mer = "PM".data then some (((hv % 12) + 12) * 60 + mv)
        else none
      | _, _ => none
    | _ => none
  | _ => none

/-- A clock string `"HH:MM"` (24-hour form-value format) in minutes after midnight. -/
def hmMinutes (t : List Char) : Option Nat :=
  match splitChar ':' t with
  | [h, m] =>
    match jsParseInt h, jsParseInt m with
    | some hv, some mv => some (hv * 60 + mv)
    | _, _ => none
  | _ => none

/-- The requested window `"HH:MM-HH:MM"` in minutes after midnight (the
claim's reading of the query's departure window). -/
def windowMinutes (s : String) : Option (Nat × Nat) :=
  match splitChar '-' s.data with
  | [a, b] =>
    match hmMinutes a, hmMinutes b with
    | some av, some bv => some (av, bv)
    | _, _ => none
  | _ => none

/-! ## Redemption lemmas -/

theorem redeemToken_already_redeemed (now : Nat) (st : String → BookingToken)
    (tid : String) (h1 : 0 < (st tid).timestamp) (h2 : (st tid).redeemed = true) :
    redeemToken now st tid = .error "Token already redeemed" := by
  simp [redeemToken, h1, h2]

theorem runRedeems_already_redeemed (ts : List Nat) (st : String → BookingToken)
    (tid : String) (h1 : 0 < (st tid).timestamp) (h2 : (st tid).redeemed = true) :
    runRedeems ts st tid = (ts.map (fun _ => .error "Token already redeemed"), st) := by
  induction ts with
  | nil => rfl
  | cons t ts ih =>
    simp [runRedeems, redeemToken_already_redeemed t st tid h1 h2, ih]

theorem specRankOrdered_iff (l : List Route) :
    specRankOrdered l ↔ specRankOrderedB l = true := by
  induction l with
  | nil => simp [specRankOrdered, specRankOrderedB]
  | cons a t ih =>
    cases t with
    | nil => simp [specRankOrdered, specRankOrderedB]
    | cons b u =>
      rw [specRankOrdered, List.chain'_cons, ← specRankOrdered, ih,
        specRankOrderedB, Bool.and_eq_true]

/-! # Claim theorems -/

/-- C3: for every search query and every list of candidate routes, the
search/ranking operation returns no route whose available-seat count is
zero. -/
theorem searchRoutes_excludes_zero_seats (p : SearchParams) (routes : List Route)
    (r : Route) (hr : r ∈ searchRoutes p routes) : 0 < r.availableSeats := by
  have h := (mem_searchRoutes.mp hr).2
  simp only [matchesSearch, Bool.and_eq_true, decide_eq_true_eq] at h
  exact h.2

theorem searchRoutes_excludes_zero_seats_witness :
    0 < (⟨"1", "Chidi O.", 49, "Silver Honda Civic", "Ogba", "VI",
      ["Berger", "Ketu"], "6:30 AM", 3, 1500, 95, 2⟩ : Route).availableSeats :=
  searchRoutes_excludes_zero_seats ⟨"Ogba", "VI", "06:00-08:00"⟩ allRoutes _
    (by decide)

/-- C10: every returned route has the query's origin as a case-insensitive
substring of the route's origin and the query's destination as a
case-insensitive substring of the route's destination. -/
theorem searchRoutes_substring_match (p : SearchParams) (routes : List Route)
    (r : Route) (h1 : p.fromLoc ≠ "") (h2 : p.toLoc ≠ "")
    (hr : r ∈ searchRoutes p routes) :
    (∃ pre post, (strToLower r.fromLoc).data =
      pre ++ (strToLower p.fromLoc).data ++ post) ∧
    (∃ pre post, (strToLower r.toLoc).data =
      pre ++ (strToLower p.toLoc).data ++ post) := by
  have h := (mem_searchRoutes.mp hr).2
  simp only [matchesSearch, strIncludes, Bool.and_eq_true] at h
  exact ⟨listIncludes_iff.mp h.1.1.1, listIncludes_iff.mp h.1.1.2⟩

theorem searchRoutes_substring_match_witness :
    (∃ pre post, (strToLower "Ogba").data = pre ++ (strToLower "gba").data ++ post) ∧
    (∃ pre post, (strToLower "VI").data = pre ++ (strToLower "vi").data ++ post) :=
  searchRoutes_substring_match ⟨"gba", "vi", "06:00-08:00"⟩ allRoutes
    ⟨"1", "Chidi O.", 49, "Silver Honda Civic", "Ogba", "VI",
      ["Berger", "Ketu"], "6:30 AM", 3, 1500, 95, 2⟩
    (by decide) (by decide) (by decide)

/-- C5 (amended): the window filter acts at hour granularity — every
returned route's parsed departure hour lies between the window's parsed
start and end hours (minutes and AM/PM markers are ignored). -/
theorem searchRoutes_hour_window (p : SearchParams) (routes : List Route)
    (r : Route) (hr : r ∈ searchRoutes p routes) :
    ∃ rt st et, routeTimeOf r = some rt ∧
      (windowHours p.timeRange).1 = some st ∧
      (windowHours p.timeRange).2 = some et ∧
      st ≤ rt ∧ rt ≤ et := by
  have h := (mem_searchRoutes.mp hr).2
  simp only [matchesSearch, Bool.and_eq_true] at h
  have htime := h.1.2
  cases hrt : routeTimeOf r with
  | none => simp [timeOk, hrt] at htime
  | some rt =>
    cases hst : (windowHours p.timeRange).1 with
    | none => simp [timeOk, hrt, hst] at htime
    | some st =>
      cases het : (windowHours p.timeRange).2 with
      | none => simp [timeOk, hrt, hst, het] at htime
      | some et =>
        simp only [timeOk, hrt, hst, het, Bool.and_eq_true, decide_eq_true_eq]
          at htime
        exact ⟨rt, st, et, rfl, rfl, rfl, htime.1, htime.2⟩

theorem searchRoutes_hour_window_witness :
    ∃ rt st et,
      routeTimeOf ⟨"1", "Chidi O.", 49, "Silver Honda Civic", "Ogba", "VI",
        ["Berger", "Ketu"], "6:30 AM", 3, 1500, 95, 2⟩ = some rt ∧
      (windowHours (SearchParams.timeRange ⟨"Ogba", "VI", "06:00-08:00"⟩)).1 = some st ∧
      (windowHours (SearchParams.timeRange ⟨"Ogba", "VI", "06:00-08:00"⟩)).2 = some et ∧
      st ≤ rt ∧ rt ≤ et :=
  searchRoutes_hour_window ⟨"Ogba", "VI", "06:00-08:00"⟩ allRoutes _ (by decide)

/-- C5 (counterexample): a candidate departing 5:15 AM (315 minutes after
midnight) lies outside the requested 05:30–09:00 window (330–540 minutes),
yet the search returns it, because only the hour components are compared. -/
theorem searchRoutes_minute_window_counterexample :
    searchRoutes ⟨"Ogba", "VI", "05:30-09:00"⟩
        [⟨"7", "Early D.", 45, "Grey Kia Rio", "Ogba", "VI", [], "5:15 AM",
          2, 1000, 90, 0⟩] =
      [⟨"7", "Early D.", 45, "Grey Kia Rio", "Ogba", "VI", [], "5:15 AM",
        2, 1000, 90, 0⟩] ∧
    depMinutes "5:15 AM" = some 315 ∧
    windowMinutes "05:30-09:00" = some (330, 540) ∧
    ¬ (330 ≤ 315 ∧ 315 ≤ 540) := by
  refine ⟨by decide, by decide, by decide, by decide⟩

/-- C4 (amended): results are ordered by `aiScore` descending, and
candidates of equal score keep their relative order from the input list
(stable sort); no seat-availability, rating or identifier tie-break is
applied. -/
theorem searchRoutes_score_desc_stable (p : SearchParams) (routes : List Route) :
    (searchRoutes p routes).Pairwise (fun a b => b.aiScore ≤ a.aiScore) ∧
    ∀ s, (searchRoutes p routes).filter (fun r => r.aiScore == s) =
      (routes.filter (matchesSearch p)).filter (fun r => r.aiScore == s) :=
  ⟨pairwise_sortByScoreDesc _, fun s => sortByScoreDesc_filter _ s⟩

/-- C4 (counterexample): two equal-score candidates where the later one has
more seats and a higher rating are returned in input order, not in the
spec's claimed tie-break order. -/
theorem searchRoutes_tiebreak_counterexample :
    ¬ specRankOrdered (searchRoutes ⟨"Ogba", "VI", "06:00-08:00"⟩
      [⟨"9", "Driver A", 40, "Car A", "Ogba", "VI", [], "6:30 AM", 1, 1000, 90, 0⟩,
       ⟨"1", "Driver B", 50, "Car B", "Ogba", "VI", [], "6:30 AM", 4, 1000, 90, 0⟩]) := by
  rw [specRankOrdered_iff]
  decide

/-- C8: the search/ranking operation is deterministic — identical query and
candidate inputs yield identical ordered outputs. -/
theorem searchRoutes_deterministic (p₁ p₂ : SearchParams)
    (rs₁ rs₂ : List Route) (hp : p₁ = p₂) (hr : rs₁ = rs₂) :
    searchRoutes p₁ rs₁ = searchRoutes p₂ rs₂ := by
  rw [hp, hr]

theorem searchRoutes_deterministic_witness :
    searchRoutes ⟨"Ogba", "VI", "06:00-08:00"⟩ allRoutes =
      searchRoutes ⟨"Ogba", "VI", "06:00-08:00"⟩ allRoutes :=
  searchRoutes_deterministic _ _ allRoutes allRoutes rfl rfl

/-- C1 (code evaluated at the failing input): booking two seats on route
`"1"` appends a `Confirmed` booking but the route table — which
`handleBooking` never writes — still reports 3 available seats, so no
decrement and no `booked + available = capacity` accounting happens. -/
theorem booking_create_no_seat_decrement :
    (handleBooking 1730000000000 "1" 2 demoInitialState).bookings.length =
      demoInitialState.bookings.length + 1 ∧
    ((handleBooking 1730000000000 "1" 2 demoInitialState).bookings.getLast?).map
      (fun b => (b.status, b.seats, b.totalPrice)) =
        some ("Confirmed", 2, 3000) ∧
    (allRoutes.find? (fun r => r.id == "1")).map Route.availableSeats = some 3 := by
  refine ⟨by decide, by decide, by decide⟩

/-- C2 (code evaluated at the failing input): route `"2"` offers 2 seats;
booking 2 seats and then 1 more both succeed as `Confirmed` bookings —
there is no capacity check, no `CapacityError`, and availability never
drops to 0. -/
theorem booking_overbook_no_capacity_error :
    (handleBooking 1730000001000 "2" 1
        (handleBooking 1730000000000 "2" 2 demoInitialState)).bookings.length = 3 ∧
    ((handleBooking 1730000001000 "2" 1
        (handleBooking 1730000000000 "2" 2 demoInitialState)).bookings.getLast?).map
      (fun b => (b.routeId, b.status, b.seats)) = some ("2", "Confirmed", 1) ∧
    (allRoutes.find? (fun r => r.id == "2")).map Route.availableSeats = some 2 := by
  refine ⟨by decide, by decide, by decide⟩

/-- C6 (code evaluated at the failing input): for a booking whose reference
was minted at clock value 1730000000000, the seat-token id minted at clock
value 1730000000555 does not contain the booking identifier at all, and a
second render at 1730000000777 with the same nonce mints a different token
for the same booking. -/
theorem seat_token_not_derived_from_booking :
    (¬ ∃ pre post, (seatTokenIdOf 1730000000555 "A1B2C3D4E").data =
      pre ++ (bookingIdOf 1730000000000).data ++ post) ∧
    seatTokenIdOf 1730000000555 "A1B2C3D4E" ≠
      seatTokenIdOf 1730000000777 "A1B2C3D4E" := by
  constructor
  · intro h
    exact absurd (listIncludes_iff.mpr h) (by decide)
  · decide

/-- C7 (code evaluated at the failing input): a gateway response with code
`"00"` but a paid amount of 1 — far from seats × price = 1500 — still moves
the checkout to the confirmation step; no amount comparison exists. -/
theorem payment_confirm_ignores_amount :
    checkoutAfterPayment
        ⟨"MX6072", "9405967", "OPENRIDE-1730000000-abc123", 1500, 566, "TEST"⟩
        ⟨"00", "", 1⟩ = CheckoutStep.confirmation ∧
    IswResponse.amountPaid ⟨"00", "", 1⟩ ≠
      bookingDataDemo.seats * bookingDataDemo.pricePerSeat := by
  refine ⟨by decide, by decide⟩

/-- C9: any serialization of N ≥ 1 atomic `redeemToken` transactions on an
existing, unredeemed, unexpired token has exactly one success, and every
other call reverts with the already-redeemed error. -/
theorem redeem_exactly_once (tid : String) (store : String → BookingToken)
    (t0 : Nat) (rest : List Nat)
    (h1 : 0 < (store tid).timestamp) (h2 : (store tid).redeemed = false)
    (h3 : (store tid).timestamp ≤ t0) (h4 : t0 - (store tid).timestamp < 86400) :
    (runRedeems (t0 :: rest) store tid).1 =
      .ok true :: rest.map (fun _ => .error "Token already redeemed") := by
  have hred : redeemToken t0 store tid =
      .ok (Function.update store tid { store tid with redeemed := true }, true) := by
    simp [redeemToken, h1, h2, h4]
  have hupd : (Function.update store tid { store tid with redeemed := true }) tid =
      { store tid with redeemed := true } := Function.update_same _ _ _
  simp only [runRedeems, hred]
  rw [runRedeems_already_redeemed rest _ tid (by rw [hupd]; exact h1) (by rw [hupd])]

theorem redeem_exactly_once_witness :
    (runRedeems [200, 300, 400]
      (fun t => if t = "SEAT-1-x" then ⟨"BK1", "r1", 100, true, false⟩ else emptyToken)
      "SEAT-1-x").1 =
    [.ok true, .error "Token already redeemed", .error "Token already redeemed"] := by
  simpa using redeem_exactly_once "SEAT-1-x"
    (fun t => if t = "SEAT-1-x" then ⟨"BK1", "r1", 100, true, false⟩ else emptyToken)
    200 [300, 400] (by decide) (by decide) (by decide) (by decide)

end Openride
